import Mathlib

/-!
Verification development for the ContextForge repository.

The relational data model is embedded from the SQL schema
(src/unnamed/part_002: tables `docs_sets`, `documents`, `text_chunks`,
`document_images`, `image_captions`, `ask_history`, `web_discovered_links`,
with their foreign-key ON DELETE actions and the
UNIQUE(source_document_id, normalized_url) constraint).

The Next.js API routes under src/frontend/app/api are embedded as pure
functions over an explicit model of JavaScript numbers (a finite double is a
rational, NaN and the infinities are collapsed into one non-finite value,
which is all `Number.isFinite` can observe).
-/

namespace ContextForge

/-- A JavaScript number as observed by the route code: either a finite double
(modelled as a rational) or a non-finite value (NaN, Infinity or -Infinity,
which `Number.isFinite` cannot tell apart). -/
inductive JsNum where
  | nan : JsNum
  | fin : ℚ → JsNum
  deriving DecidableEq

/-- `Number.isFinite`. -/
def JsNum.isFinite : JsNum → Bool
  | .nan => false
  | .fin _ => true

/-- Row of `users` (src/unnamed/part_002 lines 4-11). UUIDs and timestamps are
opaque strings / naturals. -/
structure UserRow where
  id : String
  email : String
  full_name : Option String
  role : String
  last_login : Option Nat
  deriving DecidableEq

/-- Row of `docs_sets` (src/unnamed/part_002 lines 13-20). -/
structure DocsSetRow where
  id : ℤ
  name : String
  source_type : String
  root_url : Option String
  created_by : Option String
  deriving DecidableEq

/-- Row of `documents` (src/unnamed/part_002 lines 22-36). -/
structure DocumentRow where
  id : ℤ
  source_type : String
  source_name : String
  source_url : Option String
  source_url_normalized : Option String
  source_storage_key : Option String
  source_parent_document_id : Option ℤ
  docs_set_id : Option ℤ
  created_by : Option String
  status : String
  text_chunk_count : ℤ
  image_count : ℤ
  deriving DecidableEq

/-- Row of `text_chunks` (src/unnamed/part_002 lines 38-48). The JSONB
`chunk_meta` is opaque, the nullable VECTOR(3072) column is an optional list
of rationals. -/
structure TextChunkRow where
  id : ℤ
  document_id : ℤ
  page_start : Option ℤ
  page_end : Option ℤ
  chunk_type : String
  chunk_meta : String
  text : String
  embedding : Option (List ℚ)
  deriving DecidableEq

/-- Row of `document_images` (src/unnamed/part_002 lines 50-61). -/
structure DocumentImageRow where
  id : ℤ
  document_id : ℤ
  page_number : Option ℤ
  image_index : Option ℤ
  storage_key : String
  mime_type : Option String
  file_bytes : Option ℤ
  width : Option ℤ
  height : Option ℤ
  deriving DecidableEq

/-- Row of `image_captions` (src/unnamed/part_002 lines 63-71). -/
structure ImageCaptionRow where
  id : ℤ
  image_id : ℤ
  caption_text : String
  embedding : Option (List ℚ)
  provider : Option String
  model : Option String
  deriving DecidableEq

/-- Row of `ask_history` (src/unnamed/part_002 lines 73-90). The JSONB
columns are opaque strings. `confidence_percent` is a plain INTEGER: the
schema itself carries no CHECK constraint on it. -/
structure AskHistoryRow where
  id : ℤ
  user_id : Option String
  user_email : String
  question : String
  answer : String
  conversation_id : Option String
  documents_used : String
  chunks_used : String
  images_used : String
  webpage_links : String
  confidence_percent : ℤ
  grounded : Bool
  retrieval_outcome : String
  fallback_mode : String
  evidence : String
  deriving DecidableEq

/-- The CHECK domain of `web_discovered_links.status`
(src/unnamed/part_002 line 100). -/
inductive LinkStatus where
  | discovered
  | queued
  | ingested
  | skipped
  | failed
  deriving DecidableEq

/-- Row of `web_discovered_links` (src/unnamed/part_002 lines 92-106). -/
structure WebDiscoveredLinkRow where
  id : ℤ
  source_document_id : ℤ
  docs_set_id : Option ℤ
  url : String
  normalized_url : String
  link_text : Option String
  same_domain : Bool
  status : LinkStatus
  ingested_document_id : Option ℤ
  last_error : Option String
  deriving DecidableEq

/-- The relational store: one list of rows per table of the schema. -/
structure Db where
  users : List UserRow
  docs_sets : List DocsSetRow
  documents : List DocumentRow
  text_chunks : List TextChunkRow
  document_images : List DocumentImageRow
  image_captions : List ImageCaptionRow
  ask_history : List AskHistoryRow
  web_discovered_links : List WebDiscoveredLinkRow
  deriving DecidableEq

/-- The empty store. -/
def emptyDb : Db := ⟨[], [], [], [], [], [], [], []⟩

/-- `DELETE FROM documents WHERE id = d`, with the ON DELETE actions the
schema declares (src/unnamed/part_002): `text_chunks.document_id`,
`document_images.document_id` and `web_discovered_links.source_document_id`
are ON DELETE CASCADE; `image_captions.image_id` cascades from the deleted
`document_images` rows; `documents.source_parent_document_id` and
`web_discovered_links.ingested_document_id` are ON DELETE SET NULL. -/
def deleteDocument (db : Db) (d : ℤ) : Db :=
  { db with
    documents :=
      (db.documents.filter (fun r => decide (r.id ≠ d))).map (fun r =>
        if r.source_parent_document_id = some d then
          { r with source_parent_document_id := none }
        else r)
    text_chunks := db.text_chunks.filter (fun c => decide (c.document_id ≠ d))
    document_images :=
      db.document_images.filter (fun img => decide (img.document_id ≠ d))
    image_captions := db.image_captions.filter (fun c =>
      ! db.document_images.any (fun img =>
          decide (img.id = c.image_id) && decide (img.document_id = d)))
    web_discovered_links :=
      (db.web_discovered_links.filter (fun l =>
        decide (l.source_document_id ≠ d))).map (fun l =>
          if l.ingested_document_id = some d then
            { l with ingested_document_id := none }
          else l) }

/-- `DELETE FROM docs_sets WHERE id = s`: `documents.docs_set_id` and
`web_discovered_links.docs_set_id` are both declared
`REFERENCES docs_sets(id) ON DELETE SET NULL` (src/unnamed/part_002
lines 30 and 95), so the referencing rows survive with the association
nulled. -/
def deleteDocsSet (db : Db) (s : ℤ) : Db :=
  { db with
    docs_sets := db.docs_sets.filter (fun r => decide (r.id ≠ s))
    documents := db.documents.map (fun r =>
      if r.docs_set_id = some s then { r with docs_set_id := none } else r)
    web_discovered_links := db.web_discovered_links.map (fun l =>
      if l.docs_set_id = some s then { l with docs_set_id := none } else l) }

/-- Does inserting `l` violate `UNIQUE(source_document_id, normalized_url)`
on `web_discovered_links` (src/unnamed/part_002 line 105)? -/
def linkConflicts (db : Db) (l : WebDiscoveredLinkRow) : Bool :=
  db.web_discovered_links.any (fun m =>
    decide (m.source_document_id = l.source_document_id) &&
    decide (m.normalized_url = l.normalized_url))

/-- Insert into `web_discovered_links` under the schema's unique constraint:
a conflicting insert is rejected by the store and leaves the table unchanged
(the spec's link recording is likewise "idempotent on normalized URL per
source document"). -/
def insertWebDiscoveredLink (db : Db) (l : WebDiscoveredLinkRow) : Db :=
  if linkConflicts db l then db
  else { db with web_discovered_links := db.web_discovered_links ++ [l] }

/-- The Crawl Queue Manager's per-link mutation: update one link's status,
`ingested_document_id` and `last_error` (spec 4.2). -/
def setLinkStatus (db : Db) (linkId : ℤ) (st : LinkStatus)
    (ingestedDoc : Option ℤ) (err : Option String) : Db :=
  { db with
    web_discovered_links := db.web_discovered_links.map (fun l =>
      if l.id = linkId then
        { l with status := st, ingested_document_id := ingestedDoc,
                 last_error := err }
      else l) }

/-! ### JavaScript-level helpers shared by the API route embeddings -/

/-- JavaScript `String.prototype.trim()`: strip whitespace from both ends. -/
def jsTrim (s : String) : String :=
  ⟨((s.data.dropWhile Char.isWhitespace).reverse.dropWhile
      Char.isWhitespace).reverse⟩

/-- `Math.min(Math.max(x, lo), hi)` on already-floored integers. -/
def jsClamp (x lo hi : ℤ) : ℤ := min (max x lo) hi

/-! ### The /api/ask proxy (src/unnamed/part_003)

The route reads the request body as `AskRequest = { question: string }`,
rejects a falsy or whitespace-only question with HTTP 400 before any fetch,
and otherwise forwards `JSON.stringify({ question: payload.question.trim() })`
to the engine at `/api/v1/ask`. -/

/-- The body the ask panel actually posts to /api/ask
(src/frontend/components/ask-panel.tsx lines 257-267:
`JSON.stringify({ question: trimmedQuestion, conversation_id: active.id })`). -/
structure ClientAskBody where
  question : String
  conversation_id : String
  deriving DecidableEq

/-- The body the proxy serializes for the engine (src/unnamed/part_003
line 31: `JSON.stringify({ question: payload.question.trim() })`); the
object literal has exactly this one field. -/
structure BackendAskBody where
  question : String
  deriving DecidableEq

/-- Outcome of the /api/ask proxy: 401, 400, or a request forwarded to the
engine with the serialized body. -/
inductive AskProxyResult where
  | unauthorized
  | badRequest (msg : String)
  | forwarded (body : BackendAskBody)
  deriving DecidableEq

/-- Does the proxy outcome contact the engine? Only the `forwarded` branch
performs the fetch to the backend (so only it can trigger retrieval,
synthesis, or a history write). -/
def AskProxyResult.contactsEngine : AskProxyResult → Bool
  | .forwarded _ => true
  | _ => false

/-- POST handler of src/unnamed/part_003. `sessionEmail` is
`session?.user?.email` (`none` when there is no session or no email); the
empty string is falsy in JS, so it is also rejected with 401. -/
def askProxyPOST (sessionEmail : Option String) (payload : ClientAskBody) :
    AskProxyResult :=
  match sessionEmail with
  | none => .unauthorized
  | some e =>
    if e = "" then .unauthorized
    else if payload.question = "" ∨ jsTrim payload.question = "" then
      .badRequest "Question is required"
    else
      .forwarded { question := jsTrim payload.question }

/-! ### parseLimit and the admin list routes (src/unnamed/part_004 and
src/unnamed/part_006)

`parseLimit` reads `searchParams.get("limit")` (which is `null` when the
parameter is absent), applies JS `Number(...)` and, when the result is
finite, returns `Math.min(Math.max(Math.floor(parsed), 1), 200)`; a
non-finite result yields the route's `defaultValue`. -/

/-- The value of `Number(searchParams.get("limit"))`: an absent parameter is
`null` and JS `Number(null) = 0`; a present string evaluates to the given
`JsNum` (a non-numeric string evaluates to NaN, i.e. `JsNum.nan`). -/
def numberOfLimitParam (raw : Option JsNum) : JsNum :=
  match raw with
  | none => .fin 0
  | some n => n

/-- `parseLimit` of src/unnamed/part_004 lines 9-17 (identical in
src/unnamed/part_006 lines 9-17). -/
def parseLimit (raw : Option JsNum) (defaultValue : ℤ) : ℤ :=
  match numberOfLimitParam raw with
  | .nan => defaultValue
  | .fin q => jsClamp (Rat.floor q) 1 200

/-- Outcome of an admin list GET route: 401, 403, or a fetch to the engine
carrying the computed `limit`. -/
inductive AdminListResult where
  | unauthorized
  | forbidden
  | forwarded (limit : ℤ)
  deriving DecidableEq

/-- GET handler of src/unnamed/part_004 (the ask-history list route): after
the session and admin checks it forwards `limit = parseLimit(request.url, 40)`
to `/api/v1/admin/ask-history`. `adminOk` is the result of the
`isAdminEmail` check. -/
def askHistoryGET (sessionEmail : Option String) (adminOk : Bool)
    (rawLimit : Option JsNum) : AdminListResult :=
  match sessionEmail with
  | none => .unauthorized
  | some e =>
    if e = "" then .unauthorized
    else if !adminOk then .forbidden
    else .forwarded (parseLimit rawLimit 40)

/-- GET handler of src/unnamed/part_006 (the documents list route): after the
session and admin checks it forwards `limit = parseLimit(request.url, 50)`
to `/api/v1/admin/documents`. -/
def documentsGET (sessionEmail : Option String) (adminOk : Bool)
    (rawLimit : Option JsNum) : AdminListResult :=
  match sessionEmail with
  | none => .unauthorized
  | some e =>
    if e = "" then .unauthorized
    else if !adminOk then .forbidden
    else .forwarded (parseLimit rawLimit 50)

/-! ### The per-document admin route
(src/frontend/app/api/admin/documents/[documentId]/route.ts)

Both handlers compute `Number(context.params.documentId)` and reject with
HTTP 400 when `!Number.isFinite(documentId) || documentId <= 0`, before the
fetch to the engine; otherwise they forward the (finite, positive) numeric
id in the backend URL. `allowed` is the result of `resolveAdminAccess`. -/

/-- Outcome of the DELETE / POST(reingest) handlers. -/
inductive DocIdRouteResult where
  | unauthorized
  | forbidden
  | badRequest (msg : String)
  | forwarded (documentId : ℚ)
  deriving DecidableEq

/-- Does the per-document route outcome contact the engine? Only the
`forwarded` branch performs the fetch, so only it can cause a state
change in the backend. -/
def DocIdRouteResult.contactsEngine : DocIdRouteResult → Bool
  | .forwarded _ => true
  | _ => false

/-- Shared body of the DELETE and POST handlers after their (identical)
auth checks: the document-id validation of lines 25-28 resp. 54-57.
`documentId` is `Number(context.params.documentId)` (NaN for a non-numeric
path segment). -/
def documentIdCheck (documentId : JsNum) : DocIdRouteResult :=
  match documentId with
  | .nan => .badRequest "Invalid document id"
  | .fin q => if q ≤ 0 then .badRequest "Invalid document id" else .forwarded q

/-- DELETE handler (lines 15-42): session check, `resolveAdminAccess`
check, then the document-id validation; a valid id is forwarded to
`DELETE /api/v1/admin/documents/(id)`. -/
def deleteDocumentRoute (sessionEmail : Option String) (allowed : Bool)
    (documentId : JsNum) : DocIdRouteResult :=
  match sessionEmail with
  | none => .unauthorized
  | some e =>
    if e = "" then .unauthorized
    else if !allowed then .forbidden
    else documentIdCheck documentId

/-- POST (reingest) handler (lines 44-71): same checks, forwarding to
`POST /api/v1/admin/documents/(id)/reingest`. -/
def reingestDocumentRoute (sessionEmail : Option String) (allowed : Bool)
    (documentId : JsNum) : DocIdRouteResult :=
  match sessionEmail with
  | none => .unauthorized
  | some e =>
    if e = "" then .unauthorized
    else if !allowed then .forbidden
    else documentIdCheck documentId

/-! ### The webpage ingest route
(src/frontend/app/api/admin/webpages/route.ts lines 69-128)

The POST handler trims the URL, rejects a falsy/whitespace URL with 400,
and builds `backendPayload` containing each optional grouping field only
when `typeof v === "number" && Number.isFinite(v) && v > 0`, floored;
`docs_set_name` is included when its trim is truthy. -/

/-- Runtime value of an optional JSON number field as the route's
`typeof`-guard observes it: absent, a number, or present with some
non-number runtime type. -/
inductive JsField where
  | missing
  | num (n : JsNum)
  | notNum
  deriving DecidableEq

/-- The route's guard for `docs_set_id` / `parent_document_id` /
`discovered_link_id` (lines 87-106): include `Math.floor(v)` only when the
value is a number, finite and `> 0`; otherwise the field is omitted from
`backendPayload`. -/
def groupParamForward : JsField → Option ℤ
  | .num (.fin q) => if 0 < q then some (Rat.floor q) else none
  | _ => none

/-- The route's guard for `docs_set_name` (lines 90-92): include the trimmed
name only when `payload.docs_set_name && payload.docs_set_name.trim()` is
truthy. -/
def nameForward : Option String → Option String
  | none => none
  | some s => if s = "" ∨ jsTrim s = "" then none else some (jsTrim s)

/-- The incoming `IngestWebRequest` body as the route reads it. `url` is
`none` when the field is absent (falsy like the empty string). -/
structure IngestWebPayload where
  url : Option String
  docs_set_id : JsField
  docs_set_name : Option String
  parent_document_id : JsField
  discovered_link_id : JsField
  deriving DecidableEq

/-- The `backendPayload` object the route serializes for
`POST /api/v1/admin/ingest/webpage` (lines 84-106). -/
structure BackendIngestWebBody where
  url : String
  docs_set_id : Option ℤ
  docs_set_name : Option String
  parent_document_id : Option ℤ
  discovered_link_id : Option ℤ
  deriving DecidableEq

/-- Outcome of the webpage ingest POST route. -/
inductive WebpagesResult where
  | unauthorized
  | forbidden
  | badRequest (msg : String)
  | forwarded (body : BackendIngestWebBody)
  deriving DecidableEq

/-- POST handler of the webpage ingest route (lines 69-128). -/
def webpagesPOST (sessionEmail : Option String) (allowed : Bool)
    (payload : IngestWebPayload) : WebpagesResult :=
  match sessionEmail with
  | none => .unauthorized
  | some e =>
    if e = "" then .unauthorized
    else if !allowed then .forbidden
    else match payload.url with
      | none => .badRequest "URL is required"
      | some u =>
        if u = "" ∨ jsTrim u = "" then .badRequest "URL is required"
        else
          .forwarded
            { url := jsTrim u
              docs_set_id := groupParamForward payload.docs_set_id
              docs_set_name := nameForward payload.docs_set_name
              parent_document_id := groupParamForward payload.parent_document_id
              discovered_link_id := groupParamForward payload.discovered_link_id }

/-! ### The linked-batch ingest route (second file in
src/frontend/app/api/admin/superadmin/logout/route.ts, lines 20-71)

The POST handler validates `source_document_id`
(`!Number.isFinite(v) || Math.floor(v) <= 0` is a 400), then computes
`maxPages = 20`, replaced by `Math.min(Math.max(Math.floor(max_pages), 1),
100)` when `Number.isFinite(payload.max_pages)`, and forwards
`{ source_document_id: Math.floor(v), max_pages: maxPages }` to
`/api/v1/admin/ingest/webpage/linked`. -/

/-- The incoming `LinkedIngestRequest` body. An absent `max_pages` is
`undefined`, for which `Number.isFinite` is false, exactly like NaN; an
absent `source_document_id` likewise behaves as `JsNum.nan`. -/
structure LinkedIngestRequest where
  source_document_id : JsNum
  max_pages : Option JsNum
  deriving DecidableEq

/-- The `max_pages` value the route forwards (lines 50-53). -/
def linkedIngestMaxPages (max_pages : Option JsNum) : ℤ :=
  match max_pages with
  | some (.fin q) => jsClamp (Rat.floor q) 1 100
  | _ => 20

/-- Outcome of the linked-batch ingest POST route. -/
inductive LinkedIngestResult where
  | unauthorized
  | forbidden
  | badRequest (msg : String)
  | forwarded (source_document_id : ℤ) (max_pages : ℤ)
  deriving DecidableEq

/-- POST handler of the linked-batch ingest route (lines 33-71). -/
def linkedIngestPOST (sessionEmail : Option String) (adminOk : Bool)
    (payload : LinkedIngestRequest) : LinkedIngestResult :=
  match sessionEmail with
  | none => .unauthorized
  | some e =>
    if e = "" then .unauthorized
    else if !adminOk then .forbidden
    else match payload.source_document_id with
      | .nan => .badRequest "source_document_id is required"
      | .fin q =>
        if Rat.floor q ≤ 0 then .badRequest "source_document_id is required"
        else
          .forwarded (Rat.floor q) (linkedIngestMaxPages payload.max_pages)

/-! ### Spec-modelled backend operations

The FastAPI engine itself is not under src/ (only its SQL schema and its
Next.js callers are), so the operations below are modelled from the spec,
as their doc comments state. -/

/-- Aggregate counts returned by the bounded batch ingest (spec 4.2). -/
structure LinkedBatchCounts where
  attempted : ℕ
  ingested : ℕ
  skipped : ℕ
  failed : ℕ
  deriving DecidableEq

/-- Result of attempting one link, as decided by the external fetch/ingest
world (an oracle parameter, since the network is outside the model). -/
inductive LinkAttemptOutcome where
  | ingested (newDocId : ℤ)
  | skipped
  | failed (err : String)
  deriving DecidableEq

/-- Modelled from the spec: the sequential attempt loop of the backend
`ingest_linked_batch`, which is not in src/. Per spec 4.2 each selected link
is attempted in order, its row is updated to `ingested` (with
`ingested_document_id`), `skipped`, or `failed` (with `last_error`), one
link's failure does not abort the batch, and the aggregate counts are
accumulated. -/
def runLinkAttempts (attempt : WebDiscoveredLinkRow → LinkAttemptOutcome)
    (db : Db) : List WebDiscoveredLinkRow → Db × LinkedBatchCounts
  | [] => (db, ⟨0, 0, 0, 0⟩)
  | l :: rest =>
    match attempt l with
    | .ingested newDocId =>
      let p := runLinkAttempts attempt
        (setLinkStatus db l.id .ingested (some newDocId) none) rest
      (p.1, { p.2 with attempted := p.2.attempted + 1,
                       ingested := p.2.ingested + 1 })
    | .skipped =>
      let p := runLinkAttempts attempt
        (setLinkStatus db l.id .skipped none none) rest
      (p.1, { p.2 with attempted := p.2.attempted + 1,
                       skipped := p.2.skipped + 1 })
    | .failed err =>
      let p := runLinkAttempts attempt
        (setLinkStatus db l.id .failed none (some err)) rest
      (p.1, { p.2 with attempted := p.2.attempted + 1,
                       failed := p.2.failed + 1 })

/-- Modelled from the spec: the backend `ingest_linked_batch(source_document_id,
max_pages)` operation, which is not in src/. Per spec 4.2 it "selects up to
max_pages currently `discovered` same-domain links (stable order: discovery
order), attempts each sequentially, and returns aggregate counts
{attempted, ingested, skipped, failed}"; cross-domain links are never
auto-queued. -/
def ingest_linked_batch (db : Db) (sourceDoc : ℤ) (maxPages : ℕ)
    (attempt : WebDiscoveredLinkRow → LinkAttemptOutcome) :
    Db × LinkedBatchCounts :=
  let selected :=
    (db.web_discovered_links.filter (fun l =>
      decide (l.source_document_id = sourceDoc) && l.same_domain &&
      decide (l.status = .discovered))).take maxPages
  runLinkAttempts attempt db selected

/-- Modelled from the spec: the Ingestion Coordinator's re-ingest (spec 4.1),
which is not in src/. "Re-ingest re-enters `extracting` after first
discarding all existing TextChunk/DocumentImage/ImageCaption rows for that
document, preserving the Document id and any WebDiscoveredLink history";
freshly discovered links are recorded "idempotent on normalized URL per
source document" (spec 4.1 web path), i.e. through the unique-constrained
insert. -/
def reingestDocument (db : Db) (d : ℤ) (newChunks : List TextChunkRow)
    (newImages : List DocumentImageRow)
    (newLinks : List WebDiscoveredLinkRow) : Db :=
  let oldImageIds :=
    (db.document_images.filter (fun i => decide (i.document_id = d))).map (·.id)
  let cleared := { db with
    text_chunks := db.text_chunks.filter (fun c => decide (c.document_id ≠ d))
    document_images :=
      db.document_images.filter (fun i => decide (i.document_id ≠ d))
    image_captions := db.image_captions.filter (fun c =>
      ! oldImageIds.contains c.image_id) }
  let refilled := { cleared with
    text_chunks := cleared.text_chunks ++
      newChunks.map (fun c => { c with document_id := d })
    document_images := cleared.document_images ++
      newImages.map (fun i => { i with document_id := d }) }
  newLinks.foldl (fun s l =>
    insertWebDiscoveredLink s { l with source_document_id := d }) refilled

/-- The operations of the core against the store. Inserts into the content
tables are plain SQL inserts; `recordWebLink` goes through the
unique-constrained insert; `recordAsk` is the Ask-History Recorder, modelled
from the spec (the backend writer is not in src/ and the schema carries no
CHECK): per spec section 3, AskHistory's `confidence_percent` is a
"0-100 integer", so the recorder only accepts such a row. -/
inductive Op where
  | insertDocsSet (r : DocsSetRow)
  | insertDocument (r : DocumentRow)
  | insertTextChunk (r : TextChunkRow)
  | insertDocumentImage (r : DocumentImageRow)
  | insertImageCaption (r : ImageCaptionRow)
  | recordWebLink (l : WebDiscoveredLinkRow)
  | recordAsk (r : AskHistoryRow)
      (hc : 0 ≤ r.confidence_percent ∧ r.confidence_percent ≤ 100)
  | setStatus (linkId : ℤ) (st : LinkStatus) (ingestedDoc : Option ℤ)
      (err : Option String)
  | delDocument (d : ℤ)
  | delDocsSet (s : ℤ)
  | reingest (d : ℤ) (newChunks : List TextChunkRow)
      (newImages : List DocumentImageRow)
      (newLinks : List WebDiscoveredLinkRow)
  | linkedBatch (sourceDoc : ℤ) (maxPages : ℕ)
      (attempt : WebDiscoveredLinkRow → LinkAttemptOutcome)

/-- One step of the store under an operation. -/
def step (db : Db) : Op → Db
  | .insertDocsSet r => { db with docs_sets := db.docs_sets ++ [r] }
  | .insertDocument r => { db with documents := db.documents ++ [r] }
  | .insertTextChunk r => { db with text_chunks := db.text_chunks ++ [r] }
  | .insertDocumentImage r =>
      { db with document_images := db.document_images ++ [r] }
  | .insertImageCaption r =>
      { db with image_captions := db.image_captions ++ [r] }
  | .recordWebLink l => insertWebDiscoveredLink db l
  | .recordAsk r _ => { db with ask_history := db.ask_history ++ [r] }
  | .setStatus linkId st ingestedDoc err =>
      setLinkStatus db linkId st ingestedDoc err
  | .delDocument d => deleteDocument db d
  | .delDocsSet s => deleteDocsSet db s
  | .reingest d newChunks newImages newLinks =>
      reingestDocument db d newChunks newImages newLinks
  | .linkedBatch sourceDoc maxPages attempt =>
      (ingest_linked_batch db sourceDoc maxPages attempt).1

/-- Run a sequence of operations from the empty store. -/
def execOps (ops : List Op) : Db := ops.foldl step emptyDb

/-- The `UNIQUE(source_document_id, normalized_url)` invariant of
`web_discovered_links` (src/unnamed/part_002 line 105): no two rows of the
table share both key fields. -/
def linksUnique (db : Db) : Prop :=
  db.web_discovered_links.Pairwise (fun a b =>
    a.source_document_id ≠ b.source_document_id ∨
    a.normalized_url ≠ b.normalized_url)

/-- Every persisted AskHistory row has `confidence_percent` between 0 and
100 inclusive. -/
def askConfidenceOk (db : Db) : Prop :=
  ∀ r ∈ db.ask_history, 0 ≤ r.confidence_percent ∧ r.confidence_percent ≤ 100

/-! ## Theorems -/

/-- C4: the /api/ask proxy does not pass `conversation_id` through to the
engine. Evaluating the proxy at a concrete authenticated ask request whose
client body carries `conversation_id = "conv-1"` shows the forwarded body is
exactly `{ question := "What is ContextForge?" }`: the `BackendAskBody` type
mirrors the object literal `JSON.stringify({ question: ... })` of
src/unnamed/part_003 line 31, which has no conversation field, so the
engine cannot record the conversation id in the AskHistory row. -/
theorem askProxy_drops_conversation_id :
    askProxyPOST (some "user@netaxis.be")
        { question := "What is ContextForge?", conversation_id := "conv-1" } =
      .forwarded { question := "What is ContextForge?" } := by decide

/-- C6: for every authenticated ask request whose question is empty or
whitespace-only (its JS trim is empty), the /api/ask proxy returns the
HTTP 400 validation error "Question is required" and never contacts the
engine, so no retrieval, synthesis or history write can occur and nothing
is retried. -/
theorem askProxy_rejects_blank_question (e : String) (payload : ClientAskBody)
    (he : e ≠ "") (hq : jsTrim payload.question = "") :
    askProxyPOST (some e) payload = .badRequest "Question is required" ∧
    (askProxyPOST (some e) payload).contactsEngine = false := by
  have hcond : payload.question = "" ∨ jsTrim payload.question = "" :=
    Or.inr hq
  simp only [askProxyPOST]
  rw [if_neg he, if_pos hcond]
  exact ⟨rfl, rfl⟩

/-- Witness for C6 at the concrete request with question `"   "`. -/
theorem askProxy_rejects_blank_question_witness :
    ("admin@example.com" : String) ≠ "" ∧ jsTrim "   " = "" ∧
    (askProxyPOST (some "admin@example.com")
        { question := "   ", conversation_id := "conv-9" } =
          .badRequest "Question is required" ∧
      (askProxyPOST (some "admin@example.com")
        { question := "   ", conversation_id := "conv-9" }).contactsEngine
        = false) :=
  ⟨by decide, by decide,
    askProxy_rejects_blank_question "admin@example.com"
      { question := "   ", conversation_id := "conv-9" }
      (by decide) (by decide)⟩

/-- C8 counterexample: a request with NO limit parameter is not given the
route's default. `searchParams.get("limit")` is `null`, JS `Number(null)` is
0, which is finite, so `parseLimit` clamps it to 1 instead of returning the
default (40 for the ask-history route, 50 for the documents route). -/
theorem parseLimit_missing_limit_not_default :
    parseLimit none 40 = 1 ∧ parseLimit none 40 ≠ 40 ∧
    parseLimit none 50 = 1 ∧ parseLimit none 50 ≠ 50 := by decide

/-- C8 (amended): the limit forwarded to the engine is always in 1..200; a
present non-numeric limit yields the route's fixed default (40 resp. 50); a
MISSING limit however yields 1 (JS `Number(null) = 0`, floored and clamped
up to 1), not the default. The list routes forward exactly `parseLimit` of
the query parameter. -/
theorem parseLimit_clamped_into_range :
    (∀ raw : Option JsNum, 1 ≤ parseLimit raw 40 ∧ parseLimit raw 40 ≤ 200) ∧
    (∀ raw : Option JsNum, 1 ≤ parseLimit raw 50 ∧ parseLimit raw 50 ≤ 200) ∧
    parseLimit (some .nan) 40 = 40 ∧ parseLimit (some .nan) 50 = 50 ∧
    parseLimit none 40 = 1 ∧ parseLimit none 50 = 1 ∧
    (∀ raw : Option JsNum,
      askHistoryGET (some "admin@example.com") true raw =
        .forwarded (parseLimit raw 40) ∧
      documentsGET (some "admin@example.com") true raw =
        .forwarded (parseLimit raw 50)) := by
  refine ⟨?_, ?_, by decide, by decide, by decide, by decide, ?_⟩
  · intro raw
    rcases raw with _ | n
    · exact ⟨by decide, by decide⟩
    · rcases n with _ | q
      · exact ⟨by decide, by decide⟩
      · simp only [parseLimit, numberOfLimitParam, jsClamp]
        omega
  · intro raw
    rcases raw with _ | n
    · exact ⟨by decide, by decide⟩
    · rcases n with _ | q
      · exact ⟨by decide, by decide⟩
      · simp only [parseLimit, numberOfLimitParam, jsClamp]
        omega
  · intro raw
    exact ⟨rfl, rfl⟩

/-- C9: for every authenticated, admin-allowed delete or reingest request
whose document id evaluates to a non-finite number (non-numeric path
segment, NaN, an infinity) or to a finite value that is not strictly
positive, both handlers return the HTTP 400 error "Invalid document id" and
never contact the engine, so no state change can result. -/
theorem docIdRoutes_reject_invalid_id (e : String) (id : JsNum) (he : e ≠ "")
    (hbad : id = .nan ∨ ∃ q : ℚ, id = .fin q ∧ q ≤ 0) :
    deleteDocumentRoute (some e) true id = .badRequest "Invalid document id" ∧
    reingestDocumentRoute (some e) true id =
      .badRequest "Invalid document id" ∧
    (deleteDocumentRoute (some e) true id).contactsEngine = false ∧
    (reingestDocumentRoute (some e) true id).contactsEngine = false := by
  have hcheck : documentIdCheck id = .badRequest "Invalid document id" := by
    rcases hbad with rfl | ⟨q, rfl, hq⟩
    · rfl
    · simp only [documentIdCheck]
      rw [if_pos hq]
  simp only [deleteDocumentRoute, reingestDocumentRoute]
  rw [if_neg he]
  simp [hcheck, DocIdRouteResult.contactsEngine]

/-- Witness for C9 at a non-numeric document id (`Number` gives NaN). -/
theorem docIdRoutes_reject_invalid_id_witness :
    ("admin@example.com" : String) ≠ "" ∧
    (JsNum.nan = JsNum.nan ∨ ∃ q : ℚ, JsNum.nan = JsNum.fin q ∧ q ≤ 0) ∧
    (deleteDocumentRoute (some "admin@example.com") true .nan =
        .badRequest "Invalid document id" ∧
      reingestDocumentRoute (some "admin@example.com") true .nan =
        .badRequest "Invalid document id" ∧
      (deleteDocumentRoute (some "admin@example.com") true
          .nan).contactsEngine = false ∧
      (reingestDocumentRoute (some "admin@example.com") true
          .nan).contactsEngine = false) :=
  ⟨by decide, Or.inl rfl,
    docIdRoutes_reject_invalid_id "admin@example.com" .nan (by decide)
      (Or.inl rfl)⟩

/-- C10: for every authenticated, admin-allowed web ingest request with a
non-blank URL, the route forwards the whitespace-trimmed URL together with
each optional grouping parameter mapped through the `typeof`/finite/positive
guard; a grouping parameter is forwarded (floored) exactly when it is a
finite number strictly greater than 0, and any other grouping value is
silently omitted while the request is still forwarded (never rejected). -/
theorem webpages_trim_and_group_params (e : String)
    (payload : IngestWebPayload) (u : String) (he : e ≠ "")
    (hu : payload.url = some u) (ht : jsTrim u ≠ "") :
    webpagesPOST (some e) true payload =
      .forwarded
        { url := jsTrim u
          docs_set_id := groupParamForward payload.docs_set_id
          docs_set_name := nameForward payload.docs_set_name
          parent_document_id := groupParamForward payload.parent_document_id
          discovered_link_id := groupParamForward payload.discovered_link_id } ∧
    (∀ f : JsField,
      (∃ k, groupParamForward f = some k) ↔
        ∃ q : ℚ, f = .num (.fin q) ∧ 0 < q) ∧
    (∀ q : ℚ, 0 < q →
      groupParamForward (.num (.fin q)) = some (Rat.floor q)) := by
  refine ⟨?_, ?_, ?_⟩
  · have hne : ¬(u = "" ∨ jsTrim u = "") := by
      rintro (rfl | h)
      · exact ht rfl
      · exact ht h
    simp only [webpagesPOST, hu]
    rw [if_neg he]
    simp only [Bool.not_true, Bool.false_eq_true, if_false]
    rw [if_neg hne]
  · intro f
    constructor
    · rintro ⟨k, hk⟩
      rcases f with _ | n | _
      · simp [groupParamForward] at hk
      · rcases n with _ | q
        · simp [groupParamForward] at hk
        · by_cases hq : 0 < q
          · exact ⟨q, rfl, hq⟩
          · simp [groupParamForward, hq] at hk
      · simp [groupParamForward] at hk
    · rintro ⟨q, rfl, hq⟩
      exact ⟨Rat.floor q, by simp [groupParamForward, hq]⟩
  · intro q hq
    simp [groupParamForward, hq]

/-- Witness for C10: a URL with surrounding spaces, a positive fractional
`docs_set_id`, a NaN `parent_document_id` and a non-number
`discovered_link_id`. -/
theorem webpages_trim_and_group_params_witness :
    ("admin@example.com" : String) ≠ "" ∧
    (({ url := some "  https://example.com/a  ",
        docs_set_id := .num (.fin 3),
        docs_set_name := some " Docs ",
        parent_document_id := .num .nan,
        discovered_link_id := .notNum } : IngestWebPayload).url =
      some "  https://example.com/a  ") ∧
    jsTrim "  https://example.com/a  " ≠ "" ∧
    (webpagesPOST (some "admin@example.com") true
        { url := some "  https://example.com/a  ",
          docs_set_id := .num (.fin 3),
          docs_set_name := some " Docs ",
          parent_document_id := .num .nan,
          discovered_link_id := .notNum } =
      .forwarded
        { url := jsTrim "  https://example.com/a  "
          docs_set_id := groupParamForward (.num (.fin 3))
          docs_set_name := nameForward (some " Docs ")
          parent_document_id := groupParamForward (.num .nan)
          discovered_link_id := groupParamForward .notNum } ∧
      (∀ f : JsField,
        (∃ k, groupParamForward f = some k) ↔
          ∃ q : ℚ, f = .num (.fin q) ∧ 0 < q) ∧
      (∀ q : ℚ, 0 < q →
        groupParamForward (.num (.fin q)) = some (Rat.floor q))) :=
  ⟨by decide, rfl, by decide,
    webpages_trim_and_group_params "admin@example.com"
      { url := some "  https://example.com/a  ",
        docs_set_id := .num (.fin 3),
        docs_set_name := some " Docs ",
        parent_document_id := .num .nan,
        discovered_link_id := .notNum }
      "  https://example.com/a  " (by decide) rfl (by decide)⟩

/-- The attempt loop attempts exactly the selected links, and every attempt
is accounted as exactly one of ingested, skipped or failed. -/
theorem runLinkAttempts_counts
    (attempt : WebDiscoveredLinkRow → LinkAttemptOutcome)
    (ls : List WebDiscoveredLinkRow) : ∀ db : Db,
    (runLinkAttempts attempt db ls).2.attempted = ls.length ∧
    (runLinkAttempts attempt db ls).2.attempted =
      (runLinkAttempts attempt db ls).2.ingested +
        (runLinkAttempts attempt db ls).2.skipped +
        (runLinkAttempts attempt db ls).2.failed := by
  induction ls with
  | nil => intro db; simp [runLinkAttempts]
  | cons l rest ih =>
    intro db
    cases h : attempt l with
    | ingested newDocId =>
      have hr := ih (setLinkStatus db l.id .ingested (some newDocId) none)
      simp only [runLinkAttempts, h, List.length_cons]
      omega
    | skipped =>
      have hr := ih (setLinkStatus db l.id .skipped none none)
      simp only [runLinkAttempts, h, List.length_cons]
      omega
    | failed err =>
      have hr := ih (setLinkStatus db l.id .failed none (some err))
      simp only [runLinkAttempts, h, List.length_cons]
      omega

/-- C3: the max_pages bound actually applied to a linked-batch ingest always
lies in 1..100 regardless of the caller-supplied value (absent or non-finite
values fall back to 20; finite values are floored and clamped into [1,100]),
the route forwards exactly that bound to the engine, and the batch attempts
at most that many (hence at most 100) links and returns aggregate counts
with attempted = ingested + skipped + failed. -/
theorem linkedBatch_bound_and_counts (req : Option JsNum) (db : Db)
    (sourceDoc : ℤ)
    (attempt : WebDiscoveredLinkRow → LinkAttemptOutcome) :
    1 ≤ linkedIngestMaxPages req ∧ linkedIngestMaxPages req ≤ 100 ∧
    linkedIngestPOST (some "admin@example.com") true
        { source_document_id := .fin 7, max_pages := req } =
      .forwarded 7 (linkedIngestMaxPages req) ∧
    (ingest_linked_batch db sourceDoc (linkedIngestMaxPages req).toNat
        attempt).2.attempted ≤ 100 ∧
    (ingest_linked_batch db sourceDoc (linkedIngestMaxPages req).toNat
        attempt).2.attempted =
      (ingest_linked_batch db sourceDoc (linkedIngestMaxPages req).toNat
          attempt).2.ingested +
        (ingest_linked_batch db sourceDoc (linkedIngestMaxPages req).toNat
            attempt).2.skipped +
        (ingest_linked_batch db sourceDoc (linkedIngestMaxPages req).toNat
            attempt).2.failed := by
  have hbound : 1 ≤ linkedIngestMaxPages req ∧
      linkedIngestMaxPages req ≤ 100 := by
    rcases req with _ | n
    · exact ⟨by decide, by decide⟩
    · rcases n with _ | q
      · exact ⟨by decide, by decide⟩
      · simp only [linkedIngestMaxPages, jsClamp]
        omega
  have hfloor7 : Rat.floor (7 : ℚ) = 7 := rfl
  have hroute : linkedIngestPOST (some "admin@example.com") true
      { source_document_id := .fin 7, max_pages := req } =
      .forwarded 7 (linkedIngestMaxPages req) := by
    simp only [linkedIngestPOST]
    rw [if_neg (show ¬("admin@example.com" : String) = "" by decide)]
    simp only [Bool.not_true, Bool.false_eq_true, if_false, hfloor7]
    rw [if_neg (show ¬(7 : ℤ) ≤ 0 by decide)]
  have hcounts := runLinkAttempts_counts attempt
    ((db.web_discovered_links.filter (fun l =>
      decide (l.source_document_id = sourceDoc) && l.same_domain &&
      decide (l.status = .discovered))).take
        (linkedIngestMaxPages req).toNat) db
  have hlen : ((db.web_discovered_links.filter (fun l =>
      decide (l.source_document_id = sourceDoc) && l.same_domain &&
      decide (l.status = .discovered))).take
        (linkedIngestMaxPages req).toNat).length ≤
      (linkedIngestMaxPages req).toNat := by
    exact List.length_take_le _ _
  have htoNat : (linkedIngestMaxPages req).toNat ≤ 100 := by omega
  refine ⟨hbound.1, hbound.2, hroute, ?_, ?_⟩
  · simp only [ingest_linked_batch]
    omega
  · simp only [ingest_linked_batch]
    omega

/-- C1: hard-deleting a Document removes every TextChunk, DocumentImage,
ImageCaption (via its image) and WebDiscoveredLink row belonging to it, and
after the delete no row of any table still references the deleted document
id: the document row itself is gone, no chunk or image carries its
document_id, no caption points at one of its images, no link has it as
source, no surviving document keeps it as parent and no surviving link keeps
it as ingested document. -/
theorem deleteDocument_cascades (db : Db) (d : ℤ) :
    ((deleteDocument db d).text_chunks.all fun c =>
      decide (c.document_id ≠ d)) = true ∧
    ((deleteDocument db d).document_images.all fun i =>
      decide (i.document_id ≠ d)) = true ∧
    ((deleteDocument db d).image_captions.all fun c =>
      ! db.document_images.any fun img =>
        decide (img.id = c.image_id) && decide (img.document_id = d)) = true ∧
    ((deleteDocument db d).web_discovered_links.all fun l =>
      decide (l.source_document_id ≠ d)) = true ∧
    ((deleteDocument db d).documents.all fun r => decide (r.id ≠ d)) = true ∧
    ((deleteDocument db d).documents.all fun r =>
      decide (r.source_parent_document_id ≠ some d)) = true ∧
    ((deleteDocument db d).web_discovered_links.all fun l =>
      decide (l.ingested_document_id ≠ some d)) = true := by
  refine ⟨?_, ?_, ?_, ?_, ?_, ?_, ?_⟩
  · simp only [deleteDocument, List.all_eq_true, List.mem_filter]
    intro c hc
    exact hc.2
  · simp only [deleteDocument, List.all_eq_true, List.mem_filter]
    intro i hi
    exact hi.2
  · simp only [deleteDocument, List.all_eq_true, List.mem_filter]
    intro c hc
    exact hc.2
  · simp only [deleteDocument, List.all_eq_true, List.mem_map]
    rintro l ⟨m, hm, rfl⟩
    rw [List.mem_filter] at hm
    by_cases h : m.ingested_document_id = some d <;> simp [h, hm.2]
  · simp only [deleteDocument, List.all_eq_true, List.mem_map]
    rintro r ⟨m, hm, rfl⟩
    rw [List.mem_filter] at hm
    by_cases h : m.source_parent_document_id = some d <;> simp [h, hm.2]
  · simp only [deleteDocument, List.all_eq_true, List.mem_map]
    rintro r ⟨m, hm, rfl⟩
    by_cases h : m.source_parent_document_id = some d <;> simp [h]
  · simp only [deleteDocument, List.all_eq_true, List.mem_map]
    rintro l ⟨m, hm, rfl⟩
    by_cases h : m.ingested_document_id = some d <;> simp [h]

/-- Pointwise characterization of mapping a function over a list. -/
theorem forall₂_self_map {α β : Type} {R : α → β → Prop} {f : α → β} :
    ∀ l : List α, (∀ x ∈ l, R x (f x)) → List.Forall₂ R l (l.map f)
  | [], _ => List.Forall₂.nil
  | x :: xs, h =>
    List.Forall₂.cons (h x (by simp))
      (forall₂_self_map xs fun y hy => h y (by simp [hy]))

/-- C7: deleting a DocsSet nullifies the `docs_set_id` association of every
Document and every WebDiscoveredLink that referenced it, leaves each such
row otherwise unchanged (pointwise: a row that referenced the set keeps
every other field, a row that did not is untouched), deletes no document and
no link (lengths are preserved), and removes the docs_sets row itself. -/
theorem deleteDocsSet_nullifies_associations (db : Db) (s : ℤ) :
    List.Forall₂ (fun (r r' : DocumentRow) =>
        (r.docs_set_id = some s → r' = { r with docs_set_id := none }) ∧
        (r.docs_set_id ≠ some s → r' = r))
      db.documents (deleteDocsSet db s).documents ∧
    List.Forall₂ (fun (l l' : WebDiscoveredLinkRow) =>
        (l.docs_set_id = some s → l' = { l with docs_set_id := none }) ∧
        (l.docs_set_id ≠ some s → l' = l))
      db.web_discovered_links (deleteDocsSet db s).web_discovered_links ∧
    ((deleteDocsSet db s).documents.all fun r =>
      decide (r.docs_set_id ≠ some s)) = true ∧
    ((deleteDocsSet db s).web_discovered_links.all fun l =>
      decide (l.docs_set_id ≠ some s)) = true ∧
    ((deleteDocsSet db s).docs_sets.all fun r => decide (r.id ≠ s)) = true ∧
    (deleteDocsSet db s).documents.length = db.documents.length ∧
    (deleteDocsSet db s).web_discovered_links.length =
      db.web_discovered_links.length := by
  refine ⟨?_, ?_, ?_, ?_, ?_, ?_, ?_⟩
  · apply forall₂_self_map
    intro r _
    by_cases h : r.docs_set_id = some s
    · exact ⟨fun _ => by rw [if_pos h], fun hn => absurd h hn⟩
    · exact ⟨fun hy => absurd hy h, fun _ => by rw [if_neg h]⟩
  · apply forall₂_self_map
    intro l _
    by_cases h : l.docs_set_id = some s
    · exact ⟨fun _ => by rw [if_pos h], fun hn => absurd h hn⟩
    · exact ⟨fun hy => absurd hy h, fun _ => by rw [if_neg h]⟩
  · simp only [deleteDocsSet, List.all_eq_true, List.mem_map]
    rintro r ⟨m, hm, rfl⟩
    by_cases h : m.docs_set_id = some s <;> simp [h]
  · simp only [deleteDocsSet, List.all_eq_true, List.mem_map]
    rintro l ⟨m, hm, rfl⟩
    by_cases h : m.docs_set_id = some s <;> simp [h]
  · simp only [deleteDocsSet, List.all_eq_true, List.mem_filter]
    intro r hr
    exact hr.2
  · simp [deleteDocsSet]
  · simp [deleteDocsSet]

/-- A per-row rewrite that keeps both key fields keeps the uniqueness of
(source_document_id, normalized_url). -/
theorem pairwise_key_map {f : WebDiscoveredLinkRow → WebDiscoveredLinkRow}
    (hf : ∀ l, (f l).source_document_id = l.source_document_id ∧
               (f l).normalized_url = l.normalized_url)
    {ls : List WebDiscoveredLinkRow}
    (h : ls.Pairwise (fun a b =>
      a.source_document_id ≠ b.source_document_id ∨
      a.normalized_url ≠ b.normalized_url)) :
    (ls.map f).Pairwise (fun a b =>
      a.source_document_id ≠ b.source_document_id ∨
      a.normalized_url ≠ b.normalized_url) := by
  rw [List.pairwise_map]
  refine h.imp ?_
  intro a b hab
  rcases hab with h1 | h2
  · exact Or.inl (by rw [(hf a).1, (hf b).1]; exact h1)
  · exact Or.inr (by rw [(hf a).2, (hf b).2]; exact h2)

/-- The unique-constrained insert preserves link-key uniqueness. -/
theorem linksUnique_insert (db : Db) (l : WebDiscoveredLinkRow)
    (h : linksUnique db) : linksUnique (insertWebDiscoveredLink db l) := by
  unfold linksUnique insertWebDiscoveredLink
  by_cases hc : linkConflicts db l = true
  · rw [if_pos hc]; exact h
  · rw [if_neg hc]
    rw [List.pairwise_append]
    refine ⟨h, List.pairwise_singleton _ _, ?_⟩
    intro a ha b hb
    rw [List.mem_singleton] at hb
    subst hb
    simp only [linkConflicts, List.any_eq_true, Bool.and_eq_true,
      decide_eq_true_eq] at hc
    push_neg at hc
    by_cases hsd : a.source_document_id = b.source_document_id
    · exact Or.inr (hc a ha hsd)
    · exact Or.inl hsd

/-- The Crawl Queue Manager's status update preserves link-key uniqueness:
it never touches source_document_id or normalized_url. -/
theorem linksUnique_setLinkStatus (db : Db) (linkId : ℤ) (st : LinkStatus)
    (ingestedDoc : Option ℤ) (err : Option String) (h : linksUnique db) :
    linksUnique (setLinkStatus db linkId st ingestedDoc err) := by
  unfold linksUnique setLinkStatus
  apply pairwise_key_map ?_ h
  intro l
  by_cases hl : l.id = linkId <;> simp [hl]

/-- Hard document delete preserves link-key uniqueness: it only removes
rows and nulls ingested_document_id. -/
theorem linksUnique_deleteDocument (db : Db) (d : ℤ) (h : linksUnique db) :
    linksUnique (deleteDocument db d) := by
  unfold linksUnique deleteDocument
  apply pairwise_key_map
  · intro l
    by_cases hl : l.ingested_document_id = some d <;> simp [hl]
  · exact List.Pairwise.sublist (List.filter_sublist _) h

/-- DocsSet delete preserves link-key uniqueness: it only nulls
docs_set_id. -/
theorem linksUnique_deleteDocsSet (db : Db) (s : ℤ) (h : linksUnique db) :
    linksUnique (deleteDocsSet db s) := by
  unfold linksUnique deleteDocsSet
  apply pairwise_key_map ?_ h
  intro l
  by_cases hl : l.docs_set_id = some s <;> simp [hl]

/-- The batch attempt loop preserves link-key uniqueness. -/
theorem linksUnique_runLinkAttempts
    (attempt : WebDiscoveredLinkRow → LinkAttemptOutcome)
    (ls : List WebDiscoveredLinkRow) : ∀ db : Db, linksUnique db →
    linksUnique (runLinkAttempts attempt db ls).1 := by
  induction ls with
  | nil => intro db h; exact h
  | cons l rest ih =>
    intro db h
    cases ha : attempt l <;>
      simp only [runLinkAttempts, ha] <;>
      exact ih _ (linksUnique_setLinkStatus _ _ _ _ _ h)

/-- Folding unique-constrained inserts preserves link-key uniqueness. -/
theorem linksUnique_foldl_insert
    (g : WebDiscoveredLinkRow → WebDiscoveredLinkRow)
    (ls : List WebDiscoveredLinkRow) : ∀ db : Db, linksUnique db →
    linksUnique (ls.foldl (fun s l => insertWebDiscoveredLink s (g l)) db) := by
  induction ls with
  | nil => intro db h; exact h
  | cons l rest ih => intro db h; exact ih _ (linksUnique_insert _ _ h)

/-- Re-ingest preserves link-key uniqueness: it leaves the link table alone
except for idempotent (unique-constrained) insertion of freshly discovered
links. -/
theorem linksUnique_reingest (db : Db) (d : ℤ)
    (newChunks : List TextChunkRow) (newImages : List DocumentImageRow)
    (newLinks : List WebDiscoveredLinkRow) (h : linksUnique db) :
    linksUnique (reingestDocument db d newChunks newImages newLinks) := by
  unfold reingestDocument
  exact linksUnique_foldl_insert _ newLinks _ h

/-- Every operation of the core preserves the
UNIQUE(source_document_id, normalized_url) invariant. -/
theorem linksUnique_step (db : Db) (op : Op) (h : linksUnique db) :
    linksUnique (step db op) := by
  cases op with
  | insertDocsSet r => exact h
  | insertDocument r => exact h
  | insertTextChunk r => exact h
  | insertDocumentImage r => exact h
  | insertImageCaption r => exact h
  | recordWebLink l => exact linksUnique_insert db l h
  | recordAsk r hc => exact h
  | setStatus linkId st ingestedDoc err =>
      exact linksUnique_setLinkStatus db linkId st ingestedDoc err h
  | delDocument d => exact linksUnique_deleteDocument db d h
  | delDocsSet s => exact linksUnique_deleteDocsSet db s h
  | reingest d cs is ls => exact linksUnique_reingest db d cs is ls h
  | linkedBatch sourceDoc maxPages attempt =>
      exact linksUnique_runLinkAttempts attempt _ db h

/-- C2: in every state reachable from the empty store by any sequence of
core operations — link recording, status updates, document and docs-set
deletion, re-ingesting the same web page, batch ingestion — at most one
WebDiscoveredLink row exists per (source_document_id, normalized_url)
pair. -/
theorem webLinks_unique_in_all_reachable_states (ops : List Op) :
    linksUnique (execOps ops) := by
  have hgen : ∀ db : Db, linksUnique db → linksUnique (ops.foldl step db) := by
    induction ops with
    | nil => intro db h; exact h
    | cons op rest ih => intro db h; exact ih _ (linksUnique_step db op h)
  exact hgen emptyDb List.Pairwise.nil

/-- Witness for C2: a run that web-ingests a page, records the same
normalized link twice (the second recording is absorbed by the unique
constraint), re-ingests the page with the same discovered link, and runs a
batch over it. -/
theorem webLinks_unique_witness :
    linksUnique (execOps
      [Op.insertDocument
        { id := 1, source_type := "web", source_name := "a",
          source_url := some "https://a.example/", source_url_normalized :=
            some "https://a.example/", source_storage_key := none,
          source_parent_document_id := none, docs_set_id := none,
          created_by := none, status := "ready", text_chunk_count := 0,
          image_count := 0 },
       Op.recordWebLink
        { id := 10, source_document_id := 1, docs_set_id := none,
          url := "https://a.example/x", normalized_url :=
            "https://a.example/x", link_text := none, same_domain := true,
          status := .discovered, ingested_document_id := none,
          last_error := none },
       Op.recordWebLink
        { id := 11, source_document_id := 1, docs_set_id := none,
          url := "https://a.example/x#frag", normalized_url :=
            "https://a.example/x", link_text := none, same_domain := true,
          status := .discovered, ingested_document_id := none,
          last_error := none },
       Op.reingest 1 [] []
        [{ id := 12, source_document_id := 1, docs_set_id := none,
           url := "https://a.example/x", normalized_url :=
             "https://a.example/x", link_text := none, same_domain := true,
           status := .discovered, ingested_document_id := none,
           last_error := none }],
       Op.linkedBatch 1 20 (fun _ => .ingested 2)]) :=
  webLinks_unique_in_all_reachable_states _

/-- The unique-constrained insert leaves ask_history untouched. -/
theorem insert_link_ask_history (db : Db) (l : WebDiscoveredLinkRow) :
    (insertWebDiscoveredLink db l).ask_history = db.ask_history := by
  unfold insertWebDiscoveredLink
  split <;> rfl

/-- The batch attempt loop leaves ask_history untouched. -/
theorem runLinkAttempts_ask_history
    (attempt : WebDiscoveredLinkRow → LinkAttemptOutcome)
    (ls : List WebDiscoveredLinkRow) : ∀ db : Db,
    (runLinkAttempts attempt db ls).1.ask_history = db.ask_history := by
  induction ls with
  | nil => intro db; rfl
  | cons l rest ih =>
    intro db
    cases ha : attempt l <;> simp only [runLinkAttempts, ha] <;> exact ih _

/-- Folding unique-constrained inserts leaves ask_history untouched. -/
theorem foldl_insert_ask_history
    (g : WebDiscoveredLinkRow → WebDiscoveredLinkRow)
    (ls : List WebDiscoveredLinkRow) : ∀ db : Db,
    (ls.foldl (fun s l => insertWebDiscoveredLink s (g l)) db).ask_history =
      db.ask_history := by
  induction ls with
  | nil => intro db; rfl
  | cons l rest ih =>
    intro db
    rw [List.foldl_cons, ih, insert_link_ask_history]

/-- Re-ingest leaves ask_history untouched. -/
theorem reingest_ask_history (db : Db) (d : ℤ)
    (newChunks : List TextChunkRow) (newImages : List DocumentImageRow)
    (newLinks : List WebDiscoveredLinkRow) :
    (reingestDocument db d newChunks newImages newLinks).ask_history =
      db.ask_history := by
  unfold reingestDocument
  rw [foldl_insert_ask_history]

/-- Every operation of the core keeps every persisted AskHistory row's
confidence_percent inside 0..100. -/
theorem askConfidenceOk_step (db : Db) (op : Op) (h : askConfidenceOk db) :
    askConfidenceOk (step db op) := by
  cases op with
  | insertDocsSet r => exact h
  | insertDocument r => exact h
  | insertTextChunk r => exact h
  | insertDocumentImage r => exact h
  | insertImageCaption r => exact h
  | recordWebLink l =>
      intro r hr
      rw [show (step db (.recordWebLink l)).ask_history = db.ask_history from
        insert_link_ask_history db l] at hr
      exact h r hr
  | recordAsk r hc =>
      intro r' hr'
      rcases List.mem_append.mp hr' with hold | hnew
      · exact h r' hold
      · rw [List.mem_singleton] at hnew
        subst hnew
        exact hc
  | setStatus linkId st ingestedDoc err => exact h
  | delDocument d => exact h
  | delDocsSet s => exact h
  | reingest d cs is ls =>
      intro r hr
      rw [show (step db (.reingest d cs is ls)).ask_history =
        db.ask_history from reingest_ask_history db d cs is ls] at hr
      exact h r hr
  | linkedBatch sourceDoc maxPages attempt =>
      intro r hr
      rw [show (step db (.linkedBatch sourceDoc maxPages attempt)).ask_history
        = db.ask_history from runLinkAttempts_ask_history attempt _ db] at hr
      exact h r hr

/-- C5: in every state reachable from the empty store by any sequence of
core operations, every AskHistory row stores a confidence_percent between 0
and 100 inclusive: the (spec-modelled) Ask-History Recorder only appends
rows with a 0..100 integer, and no other operation writes that table. -/
theorem askHistory_confidence_in_range (ops : List Op) :
    askConfidenceOk (execOps ops) := by
  have hgen : ∀ db : Db, askConfidenceOk db →
      askConfidenceOk (ops.foldl step db) := by
    induction ops with
    | nil => intro db h; exact h
    | cons op rest ih => intro db h; exact ih _ (askConfidenceOk_step db op h)
  exact hgen emptyDb fun r hr => absurd hr (List.not_mem_nil r)

/-- Witness for C5: a run that records one ask with confidence 87 and then
deletes a document. -/
theorem askHistory_confidence_witness :
    askConfidenceOk (execOps
      [Op.recordAsk
        { id := 1, user_id := none, user_email := "user@netaxis.be",
          question := "What is ContextForge?", answer := "An assistant.",
          conversation_id := some "conv-1", documents_used := "[]",
          chunks_used := "[]", images_used := "[]", webpage_links := "[]",
          confidence_percent := 87, grounded := true,
          retrieval_outcome := "primary_sufficient", fallback_mode := "none",
          evidence := "{}" } (by decide),
       Op.delDocument 5]) :=
  askHistory_confidence_in_range _

end ContextForge
